import Mathlib

/-!
Shallow embedding of `src/cmd/mrtransform.cpp` (the MRtrix `mrtransform`
command).  The `EXECUTE` block is modelled as a pure function from the parsed
command-line options and the input image header to either a validation /
numerical error or a trace of the image-level effects it performs (creating
the output image, invoking the reslicing engine, or copying voxel data).
Matrices are 4x4 rational matrices; parsed external inputs (the transform
file, the oversample integer list, image headers) are taken as already-parsed
values, since file parsing is done by external collaborators.
-/

namespace MRTransform

/-- 4x4 transform matrix (`Math::Matrix<float>`), over `ℚ`. -/
abbrev Mat4 := Matrix (Fin 4) (Fin 4) ℚ

/-- Single element write `M(i,j) = v` on a 4x4 matrix. -/
def setEntry (M : Mat4) (i j : Fin 4) (v : ℚ) : Mat4 :=
  Matrix.of fun a b => if a = i ∧ b = j then v else M a b

/-- The errors `EXECUTE` can raise (`throw Exception (...)`), plus the
singular-matrix failure of `Math::LU::inv`.  `missingTransform s` stands for
the message `no transform provided for option '-s' (specify using
'-transform' option)`. -/
inductive Err where
  | notFourByFour : Err
  | missingTransform : String → Err
  | oversampleSize : Err
  | oversampleBad : Err
  | singular : Err
deriving DecidableEq

/-- The fields of `Image::Header` that `EXECUTE` reads or writes: the first
three axis dimensions and voxel sizes, the image transform, the image name
and the comment list.  (The datatype field is metadata only and is not
modelled.) -/
structure Header where
  dim : Fin 3 → ℕ
  vox : Fin 3 → ℚ
  transform : Mat4
  name : String
  comments : List String

/-- The matrix parsed from the `-transform` file by `Math::Matrix::load`
(external parser): a row count, a column count and the entries. -/
structure RawMatrix where
  rows : ℕ
  cols : ℕ
  entry : ℕ → ℕ → ℚ

/-- The 4x4 matrix held by a `RawMatrix` that passed the 4x4 shape check. -/
def RawMatrix.toMat4 (r : RawMatrix) : Mat4 :=
  Matrix.of fun i j => r.entry (i : ℕ) (j : ℕ)

/-- The parsed command-line options of `mrtransform`.  `interp` is the index
into `interp_choices = [nearest, linear, cubic]` (guaranteed in range by
`type_choice`); `oversample` is the integer list produced by `parse_ints`. -/
structure Opts where
  transform : Option RawMatrix
  replace : Bool
  inverse : Bool
  reslice : Option Header
  reference : Option Header
  flipx : Bool
  interp : Option (Fin 3)
  oversample : Option (List ℤ)

/-- The interpolation kernels of `interp_choices`. -/
inductive Kernel where
  | nearest : Kernel
  | linear : Kernel
  | cubic : Kernel
deriving DecidableEq

/-- The `switch (interp)` dispatch: index 0 is nearest, 1 linear, 2 cubic. -/
def kernelOfIndex (n : ℕ) : Kernel :=
  match n with
  | 0 => Kernel.nearest
  | 1 => Kernel.linear
  | _ => Kernel.cubic

/-- Image-level effects performed by `EXECUTE`, in order: creating the output
image from a header (`argument[1].get_image (header)`), invoking
`DataSet::Interp::reslice` (with the input header as voxel source, the
transform argument `T`, and the oversample factors), or copying voxel data
(`DataSet::copy_with_progress`). -/
inductive Event where
  | createOutput : Header → Event
  | resliceCall : Kernel → Header → Option Mat4 → List ℤ → Event
  | copyCall : Header → Header → Event

/-- Modelled from the spec: `Math::LU::inv` (the LU-decomposition inverse,
declared in headers outside `src/`) fails with a singular-matrix error when
the determinant is zero, and otherwise returns the inverse; no silent
fallback.  Over `ℚ` the inverse is `det⁻¹ • adjugate`. -/
def inv4 (A : Mat4) : Except Err Mat4 :=
  if A.det = 0 then Except.error Err.singular
  else Except.ok (A.det⁻¹ • A.adjugate)

/-- Lines 114-119: load the `-transform` matrix, and reject it unless it is
exactly 4x4. -/
def loadT (o : Opts) : Except Err (Option Mat4) :=
  match o.transform with
  | none => Except.ok none
  | some raw =>
      if raw.rows ≠ 4 ∨ raw.cols ≠ 4 then Except.error Err.notFourByFour
      else Except.ok (some raw.toMat4)

/-- Lines 131-137: if `-inverse` was given, require a transform and invert
it. -/
def applyInverse (inverse : Bool) (T : Option Mat4) : Except Err (Option Mat4) :=
  if inverse then
    match T with
    | none => Except.error (Err.missingTransform "inverse")
    | some t => (inv4 t).map some
  else Except.ok T

/-- Lines 146-158: the two flipx correction matrices `(R_ref, R_orig)`.
`R_ref` starts as the identity with `(0,0) = -1`, `R_orig` is a copy of it;
then `R_ref(0,3) = (ref_header.dim(0)-1) * ref_header.vox(0)` and
`R_orig(0,3) = (header.dim(0)-1) * header.vox(0)`; finally the two are
swapped when `inverse` is set. -/
def flipxPair (refH header : Header) (inverse : Bool) : Mat4 × Mat4 :=
  let R0 : Mat4 := setEntry 1 0 0 (-1)
  let R_ref : Mat4 := setEntry R0 0 3 (((refH.dim 0 : ℚ) - 1) * refH.vox 0)
  let R_orig : Mat4 := setEntry R0 0 3 (((header.dim 0 : ℚ) - 1) * header.vox 0)
  if inverse then (R_orig, R_ref) else (R_ref, R_orig)

/-- Lines 146-162: when `-flipx` is set, replace `t` by
`R_ref * t * R_orig` (`Math::mult (T_tmp, T, R_orig); Math::mult (T, R_ref,
T_tmp)`); otherwise leave it unchanged. -/
def flipxCorrect (o : Opts) (header refH : Header) (inverse : Bool) (t : Mat4) : Mat4 :=
  if o.flipx then
    (flipxPair refH header inverse).1 * t * (flipxPair refH header inverse).2
  else t

/-- Lines 139-168: the `-reference` branch.  Requires a transform; applies
the flipx correction, premultiplies by the reference scanner transform
(`Math::mult (T_tmp, ref_header.transform(), T); T.swap (T_tmp)`), and
forces `replace = true`. -/
def applyReference (o : Opts) (header : Header) (inverse : Bool)
    (T : Option Mat4) (replace : Bool) : Except Err (Option Mat4 × Bool) :=
  match o.reference with
  | none => Except.ok (T, replace)
  | some refH =>
      match T with
      | none => Except.error (Err.missingTransform "reference")
      | some t =>
          Except.ok (some (refH.transform * flipxCorrect o header refH inverse t), true)

/-- Lines 172-174: `-replace` (possibly forced by `-reference`) requires a
transform. -/
def replaceCheck (replace : Bool) (T : Option Mat4) : Except Err Unit :=
  if replace then
    match T with
    | none => Except.error (Err.missingTransform "replace")
    | some _ => Except.ok ()
  else Except.ok ()

/-- Lines 111-174: the transform-composition prefix of `EXECUTE`: load the
transform, invert it on `-inverse`, apply the `-reference` / `-flipx`
handling, then run the `-replace` check.  Returns the composed transform and
the final replace flag. -/
def composeTransform (o : Opts) (header : Header) : Except Err (Option Mat4 × Bool) :=
  match loadT o with
  | Except.error e => Except.error e
  | Except.ok T0 =>
      match applyInverse o.inverse T0 with
      | Except.error e => Except.error e
      | Except.ok T1 =>
          match applyReference o header o.inverse T1 o.replace with
          | Except.error e => Except.error e
          | Except.ok (T2, rep) =>
              match replaceCheck rep T2 with
              | Except.error e => Except.error e
              | Except.ok _ => Except.ok (T2, rep)

/-- Lines 194-201: validate the `-oversample` list: exactly 3 values, each
at least 1. -/
def checkOversample (v : List ℤ) : Except Err Unit :=
  match v with
  | [a, b, c] =>
      if a < 1 ∨ b < 1 ∨ c < 1 then Except.error Err.oversampleBad
      else Except.ok ()
  | _ => Except.error Err.oversampleSize

/-- Lines 203-218: the tail of the reslice branch.  When `replace` is set the
composed transform is swapped into the input header and cleared
(`header_in.transform().swap (T); T.clear()`), so the engine receives an
unset transform; then the output image is created from the template-shaped
header and the reslicing engine is invoked.  (The `replace` case with an
unset transform is unreachable: it is rejected by `replaceCheck`.) -/
def resliceGo (headerIn header2 : Header) (interp : ℕ) (T : Option Mat4)
    (replace : Bool) (ov : List ℤ) : List Event × Option Err :=
  let p : Header × Option Mat4 :=
    if replace then
      match T with
      | some t => ({ headerIn with transform := t }, none)
      | none => (headerIn, none)
    else (headerIn, T)
  ([Event.createOutput header2, Event.resliceCall (kernelOfIndex interp) p.1 p.2 ov], none)

/-- Lines 178-218: the reslice branch.  The output header takes the
template's first three dimensions and voxel sizes and its transform, and a
comment is appended; the interpolation index defaults to 1 (linear); the
oversample list (empty when unspecified) is validated; then the replace
handling, output creation and engine invocation follow. -/
def resliceBranch (o : Opts) (headerIn header tmpl : Header) (T : Option Mat4)
    (replace : Bool) : List Event × Option Err :=
  let header2 : Header :=
    { header with
      dim := tmpl.dim
      vox := tmpl.vox
      transform := tmpl.transform
      comments := header.comments ++
        ["resliced to reference image \"" ++ tmpl.name ++ "\""] }
  let interp : ℕ := match o.interp with | none => 1 | some k => (k : ℕ)
  match o.oversample with
  | none => resliceGo headerIn header2 interp T replace []
  | some v =>
      match checkOversample v with
      | Except.error e => ([], some e)
      | Except.ok _ => resliceGo headerIn header2 interp T replace v

/-- Lines 221-237: the direct-copy branch.  If a transform is set, the output
header's transform either becomes `T` (`replace`) or is premultiplied by `T`
(`Math::mult (header.transform(), T, M)` with `M` the existing transform),
with a comment appended; then the output image is created and the voxel data
copied unchanged. -/
def copyBranch (headerIn header : Header) (T : Option Mat4) (replace : Bool) :
    List Event × Option Err :=
  match T with
  | none => ([Event.createOutput header, Event.copyCall headerIn header], none)
  | some t =>
      let h1 : Header := { header with comments := header.comments ++ ["transform modified"] }
      let h2 : Header :=
        if replace then { h1 with transform := t }
        else { h1 with transform := t * h1.transform }
      ([Event.createOutput h2, Event.copyCall headerIn h2], none)

/-- The whole `EXECUTE` block: compose the transform (any failure aborts with
no effect performed), then take the reslice branch when `-reslice` was given
and the direct-copy branch otherwise.  `header` starts as a copy of
`header_in` (line 123). -/
def run (o : Opts) (headerIn : Header) : List Event × Option Err :=
  match composeTransform o headerIn with
  | Except.error e => ([], some e)
  | Except.ok (T2, rep) =>
      match o.reslice with
      | some tmpl => resliceBranch o headerIn headerIn tmpl T2 rep
      | none => copyBranch headerIn headerIn T2 rep

/-- Spec-side description a flipx correction matrix: the 4x4 identity with
entry `(0,0)` set to `-1` and entry `(0,3)` set to `t`. -/
def specFlipMat (t : ℚ) : Mat4 :=
  Matrix.of fun i j =>
    if i = 0 ∧ j = 0 then -1
    else if i = 0 ∧ j = 3 then t
    else if i = j then 1 else 0

/-- An input-image header used as a concrete test fixture. -/
def exHeader : Header :=
  { dim := fun _ => 4, vox := fun _ => 1, transform := 1, name := "in", comments := [] }

/-- A reference/template header used as a concrete test fixture. -/
def exRef : Header :=
  { dim := fun _ => 6, vox := fun _ => 2, transform := 1, name := "ref", comments := [] }

/-- A run with no option supplied, used as a concrete test fixture. -/
def exOpts : Opts :=
  { transform := none, replace := false, inverse := false, reslice := none,
    reference := none, flipx := false, interp := none, oversample := none }

/-- A well-formed 4x4 parsed transform file. -/
def exRaw4 : RawMatrix :=
  { rows := 4, cols := 4, entry := fun i j => if i = j then 1 else 0 }

/-- A malformed parsed transform file with only 3 rows. -/
def exRaw3 : RawMatrix :=
  { rows := 3, cols := 4, entry := fun _ _ => 0 }

lemma setEntry_flip (t : ℚ) :
    setEntry (setEntry (1 : Mat4) 0 0 (-1)) 0 3 t = specFlipMat t := by
  ext a b
  fin_cases a <;> fin_cases b <;>
    simp [setEntry, specFlipMat, Matrix.one_apply]

lemma flipxPair_eq (refH header : Header) (inverse : Bool) :
    flipxPair refH header inverse =
      (if inverse then specFlipMat (((header.dim 0 : ℚ) - 1) * header.vox 0)
       else specFlipMat (((refH.dim 0 : ℚ) - 1) * refH.vox 0),
       if inverse then specFlipMat (((refH.dim 0 : ℚ) - 1) * refH.vox 0)
       else specFlipMat (((header.dim 0 : ℚ) - 1) * header.vox 0)) := by
  cases inverse <;> simp [flipxPair, setEntry_flip]

/-- C1: with `-reference` and `-flipx` supplied and a transform loaded, the
composer builds `R_ref` (identity with `(0,0) = -1` and `(0,3) =
(refDim0 - 1) * refVoxSize0`) and `R_orig` (identity with `(0,0) = -1` and
`(0,3) = (inputDim0 - 1) * inputVoxSize0`), swaps their roles when
`-inverse` was supplied, and updates `T` to `R_ref * T * R_orig` before
premultiplying by the reference scanner transform. -/
theorem flipx_correction_builds_spec_matrices (o : Opts) (header refH : Header)
    (inverse : Bool) (t : Mat4) (replace : Bool)
    (href : o.reference = some refH) (hfx : o.flipx = true) :
    applyReference o header inverse (some t) replace =
      Except.ok (some (refH.transform *
        ((if inverse then specFlipMat (((header.dim 0 : ℚ) - 1) * header.vox 0)
          else specFlipMat (((refH.dim 0 : ℚ) - 1) * refH.vox 0)) * t *
         (if inverse then specFlipMat (((refH.dim 0 : ℚ) - 1) * refH.vox 0)
          else specFlipMat (((header.dim 0 : ℚ) - 1) * header.vox 0)))), true) := by
  simp [applyReference, href, flipxCorrect, hfx, flipxPair_eq]

theorem flipx_correction_builds_spec_matrices_witness :
    applyReference { exOpts with reference := some exRef, flipx := true }
        exHeader false (some 1) false =
      Except.ok (some (exRef.transform *
        (specFlipMat (((exRef.dim 0 : ℚ) - 1) * exRef.vox 0) * 1 *
         specFlipMat (((exHeader.dim 0 : ℚ) - 1) * exHeader.vox 0))), true) :=
  flipx_correction_builds_spec_matrices
    { exOpts with reference := some exRef, flipx := true }
    exHeader exRef false 1 false rfl rfl

/-- C2: with `-reference` supplied and a transform set (after any inversion
and flipx correction), the final transform is the reference scanner
transform times `T`, and the replace flag becomes `true` regardless of the
incoming replace flag. -/
theorem reference_premultiplies_and_forces_replace (o : Opts) (header refH : Header)
    (inverse : Bool) (t : Mat4) (replace : Bool)
    (href : o.reference = some refH) :
    applyReference o header inverse (some t) replace =
      Except.ok (some (refH.transform * flipxCorrect o header refH inverse t), true) := by
  simp [applyReference, href]

lemma applyReference_none (o : Opts) (header : Header) (inverse : Bool)
    (T : Option Mat4) (replace : Bool) (hr : o.reference = none) :
    applyReference o header inverse T replace = Except.ok (T, replace) := by
  simp [applyReference, hr]

lemma copyBranch_snd (headerIn header : Header) (T : Option Mat4) (replace : Bool) :
    (copyBranch headerIn header T replace).2 = none := by
  cases T <;> rfl

lemma checkOversample_error (v : List ℤ) (e : Err)
    (h : checkOversample v = Except.error e) :
    e = Err.oversampleSize ∨ e = Err.oversampleBad := by
  rcases v with _ | ⟨a, _ | ⟨b, _ | ⟨c, _ | ⟨d, w⟩⟩⟩⟩
  · simp only [checkOversample, Except.error.injEq] at h
    exact Or.inl h.symm
  · simp only [checkOversample, Except.error.injEq] at h
    exact Or.inl h.symm
  · simp only [checkOversample, Except.error.injEq] at h
    exact Or.inl h.symm
  · simp only [checkOversample] at h
    split at h
    · simp only [Except.error.injEq] at h
      exact Or.inr h.symm
    · simp at h
  · simp only [checkOversample, Except.error.injEq] at h
    exact Or.inl h.symm

lemma checkOversample_bad (v : List ℤ)
    (hbad : v.length ≠ 3 ∨ ∃ x ∈ v, x < 1) :
    checkOversample v = Except.error Err.oversampleSize ∨
    checkOversample v = Except.error Err.oversampleBad := by
  rcases v with _ | ⟨a, _ | ⟨b, _ | ⟨c, _ | ⟨d, w⟩⟩⟩⟩
  · exact Or.inl rfl
  · exact Or.inl rfl
  · exact Or.inl rfl
  · right
    have h1 : a < 1 ∨ b < 1 ∨ c < 1 := by
      rcases hbad with hl | ⟨x, hx, hlt⟩
      · exact absurd rfl hl
      · simp only [List.mem_cons, List.not_mem_nil, or_false] at hx
        rcases hx with rfl | rfl | rfl
        · exact Or.inl hlt
        · exact Or.inr (Or.inl hlt)
        · exact Or.inr (Or.inr hlt)
    simp only [checkOversample, if_pos h1]
  · exact Or.inl rfl

lemma resliceBranch_cases (o : Opts) (headerIn header tmpl : Header)
    (T : Option Mat4) (replace : Bool) :
    (resliceBranch o headerIn header tmpl T replace).2 = none ∨
    ((resliceBranch o headerIn header tmpl T replace).1 = [] ∧
     ((resliceBranch o headerIn header tmpl T replace).2 = some Err.oversampleSize ∨
      (resliceBranch o headerIn header tmpl T replace).2 = some Err.oversampleBad)) := by
  cases ho : o.oversample with
  | none => left; simp [resliceBranch, ho, resliceGo]
  | some v =>
      cases hc : checkOversample v with
      | error e =>
          right
          rcases checkOversample_error v e hc with h1 | h1 <;> subst h1 <;>
            simp [resliceBranch, ho, hc]
      | ok u =>
          cases u
          left; simp [resliceBranch, ho, hc, resliceGo]

lemma loadT_of_some (o : Opts) (raw : RawMatrix) (ht : o.transform = some raw) :
    loadT o = Except.error Err.notFourByFour ∨
    loadT o = Except.ok (some raw.toMat4) := by
  by_cases hsh : raw.rows ≠ 4 ∨ raw.cols ≠ 4
  · exact Or.inl (by simp [loadT, ht, hsh])
  · exact Or.inr (by simp [loadT, ht, hsh])

lemma applyInverse_some (b : Bool) (M : Mat4) :
    applyInverse b (some M) = Except.error Err.singular ∨
    ∃ M2, applyInverse b (some M) = Except.ok (some M2) := by
  cases b
  · exact Or.inr ⟨M, rfl⟩
  · by_cases hd : M.det = 0
    · exact Or.inl (by simp [applyInverse, inv4, hd, Except.map])
    · exact Or.inr ⟨M.det⁻¹ • M.adjugate, by simp [applyInverse, inv4, hd, Except.map]⟩

lemma applyReference_some (o : Opts) (header : Header) (inverse : Bool) (M : Mat4)
    (replace : Bool) :
    ∃ M2 rep2, applyReference o header inverse (some M) replace =
      Except.ok (some M2, rep2) := by
  cases hr : o.reference with
  | none => exact ⟨M, replace, by simp [applyReference, hr]⟩
  | some refH =>
      exact ⟨refH.transform * flipxCorrect o header refH inverse M, true,
        by simp [applyReference, hr]⟩

lemma replaceCheck_some (replace : Bool) (M : Mat4) :
    replaceCheck replace (some M) = Except.ok () := by
  cases replace <;> rfl

lemma composeTransform_of_loadT_some (o : Opts) (h : Header) (M : Mat4)
    (hL : loadT o = Except.ok (some M)) :
    composeTransform o h = Except.error Err.singular ∨
    ∃ M2 rep2, composeTransform o h = Except.ok (some M2, rep2) := by
  rcases applyInverse_some o.inverse M with h1 | ⟨M1, h1⟩
  · left
    simp [composeTransform, hL, h1]
  · obtain ⟨M2, rep2, h2⟩ := applyReference_some o h o.inverse M1 o.replace
    right
    exact ⟨M2, rep2, by simp [composeTransform, hL, h1, h2, replaceCheck_some]⟩

lemma run_snd_of_compose_ok_some (o : Opts) (h : Header) (M2 : Mat4) (rep2 : Bool)
    (hC : composeTransform o h = Except.ok (some M2, rep2)) :
    (run o h).2 = none ∨ (run o h).2 = some Err.oversampleSize ∨
      (run o h).2 = some Err.oversampleBad := by
  simp only [run, hC]
  cases hres : o.reslice with
  | none => exact Or.inl (copyBranch_snd h h (some M2) rep2)
  | some tmpl =>
      rcases resliceBranch_cases o h h tmpl (some M2) rep2 with h1 | ⟨_, h1⟩
      · exact Or.inl h1
      · exact Or.inr h1

/-- C3: in the direct-copy path with a transform set, the output header's
transform becomes exactly `T` when replace is set and `T * original`
otherwise; with no transform set the header transform is unchanged. -/
theorem direct_copy_header_transform (o : Opts) (h : Header) (T2 : Option Mat4)
    (rep : Bool) (hres : o.reslice = none)
    (hok : composeTransform o h = Except.ok (T2, rep)) :
    ∃ outH : Header,
      (run o h).1 = [Event.createOutput outH, Event.copyCall h outH] ∧
      outH.transform = (match T2 with
        | none => h.transform
        | some t => if rep then t else t * h.transform) := by
  simp only [run, hok, hres]
  cases T2 with
  | none => exact ⟨h, rfl, rfl⟩
  | some t =>
      cases rep with
      | false =>
          refine ⟨{ h with
                    comments := h.comments ++ ["transform modified"]
                    transform := t * h.transform }, ?_, rfl⟩
          simp [copyBranch]
      | true =>
          refine ⟨{ h with
                    comments := h.comments ++ ["transform modified"]
                    transform := t }, ?_, rfl⟩
          simp [copyBranch]

theorem direct_copy_header_transform_witness :
    ∃ outH : Header,
      (run exOpts exHeader).1 = [Event.createOutput outH, Event.copyCall exHeader outH] ∧
      outH.transform = exHeader.transform :=
  direct_copy_header_transform exOpts exHeader none false rfl rfl

/-- C4: each of `-inverse`, `-reference`, `-replace` without a loaded
transform raises the validation error naming the missing transform (checked
in that order), and with a transform supplied none of the three
missing-transform checks raises. -/
theorem options_require_transform (o : Opts) (h : Header) :
    (o.transform = none → o.inverse = true →
        run o h = ([], some (Err.missingTransform "inverse"))) ∧
    (o.transform = none → o.inverse = false → o.reference.isSome →
        run o h = ([], some (Err.missingTransform "reference"))) ∧
    (o.transform = none → o.inverse = false → o.reference = none →
        o.replace = true →
        run o h = ([], some (Err.missingTransform "replace"))) ∧
    (∀ raw : RawMatrix, o.transform = some raw →
        ∀ s : String, (run o h).2 ≠ some (Err.missingTransform s)) := by
  refine ⟨?_, ?_, ?_, ?_⟩
  · intro ht hi
    simp [run, composeTransform, loadT, ht, applyInverse, hi]
  · intro ht hi hr
    obtain ⟨refH, hrf⟩ := Option.isSome_iff_exists.mp hr
    simp [run, composeTransform, loadT, ht, applyInverse, hi, applyReference, hrf]
  · intro ht hi hr hrep
    simp [run, composeTransform, loadT, ht, applyInverse, hi, applyReference, hr,
      replaceCheck, hrep]
  · intro raw ht s
    rcases loadT_of_some o raw ht with hL | hL
    · simp [run, composeTransform, hL]
    · rcases composeTransform_of_loadT_some o h raw.toMat4 hL with hC | ⟨M2, rep2, hC⟩
      · simp [run, hC]
      · rcases run_snd_of_compose_ok_some o h M2 rep2 hC with h1 | h1 | h1 <;>
          simp [h1]

theorem options_require_transform_witness :
    run { exOpts with inverse := true } exHeader =
      ([], some (Err.missingTransform "inverse")) ∧
    run { exOpts with reference := some exRef } exHeader =
      ([], some (Err.missingTransform "reference")) ∧
    run { exOpts with replace := true } exHeader =
      ([], some (Err.missingTransform "replace")) ∧
    (run { exOpts with transform := some exRaw4 } exHeader).2 ≠
      some (Err.missingTransform "inverse") :=
  ⟨(options_require_transform { exOpts with inverse := true } exHeader).1 rfl rfl,
   (options_require_transform { exOpts with reference := some exRef } exHeader).2.1
     rfl rfl rfl,
   (options_require_transform { exOpts with replace := true } exHeader).2.2.1
     rfl rfl rfl rfl,
   (options_require_transform { exOpts with transform := some exRaw4 } exHeader).2.2.2
     exRaw4 rfl "inverse"⟩

/-- C6: a parsed transform file that is not exactly 4x4 raises the
validation error, and a well-formed 4x4 one never raises it. -/
theorem transform_must_be_4x4 (o : Opts) (h : Header) (raw : RawMatrix)
    (ht : o.transform = some raw) :
    ((raw.rows ≠ 4 ∨ raw.cols ≠ 4) → run o h = ([], some Err.notFourByFour)) ∧
    (raw.rows = 4 → raw.cols = 4 → (run o h).2 ≠ some Err.notFourByFour) := by
  constructor
  · intro hsh
    simp [run, composeTransform, loadT, ht, hsh]
  · intro h4 hc4
    have hL : loadT o = Except.ok (some raw.toMat4) := by simp [loadT, ht, h4, hc4]
    rcases composeTransform_of_loadT_some o h raw.toMat4 hL with hC | ⟨M2, rep2, hC⟩
    · simp [run, hC]
    · rcases run_snd_of_compose_ok_some o h M2 rep2 hC with h1 | h1 | h1 <;>
        simp [h1]

theorem transform_must_be_4x4_witness :
    run { exOpts with transform := some exRaw3 } exHeader =
      ([], some Err.notFourByFour) ∧
    (run { exOpts with transform := some exRaw4 } exHeader).2 ≠
      some Err.notFourByFour :=
  ⟨(transform_must_be_4x4 { exOpts with transform := some exRaw3 } exHeader exRaw3
      rfl).1 (Or.inl (by norm_num [exRaw3])),
   (transform_must_be_4x4 { exOpts with transform := some exRaw4 } exHeader exRaw4
      rfl).2 rfl rfl⟩

/-- C7: whenever the run raises an error, the effect trace is empty: no
output image is created on any validation or numerical failure. -/
theorem no_output_on_error (o : Opts) (h : Header) (e : Err)
    (herr : (run o h).2 = some e) : (run o h).1 = [] := by
  cases hC : composeTransform o h with
  | error e2 => simp [run, hC]
  | ok pr =>
      obtain ⟨T2, rep⟩ := pr
      simp only [run, hC] at herr ⊢
      cases hres : o.reslice with
      | none =>
          simp only [hres] at herr
          rw [copyBranch_snd] at herr
          exact Option.noConfusion herr
      | some tmpl =>
          simp only [hres] at herr ⊢
          rcases resliceBranch_cases o h h tmpl T2 rep with h1 | ⟨h1, _⟩
          · rw [h1] at herr
            exact Option.noConfusion herr
          · exact h1

theorem no_output_on_error_witness :
    (run { exOpts with inverse := true } exHeader).1 = [] :=
  no_output_on_error { exOpts with inverse := true } exHeader
    (Err.missingTransform "inverse") rfl

theorem reference_premultiplies_and_forces_replace_witness :
    applyReference { exOpts with reference := some exRef } exHeader false
        (some 1) false =
      Except.ok (some (exRef.transform *
        flipxCorrect { exOpts with reference := some exRef } exHeader exRef false 1),
        true) :=
  reference_premultiplies_and_forces_replace
    { exOpts with reference := some exRef } exHeader exRef false 1 false rfl

/-- C5 counterexample: a run supplying `-oversample 0 1 1` but not
`-reslice` raises no error at all (the oversample vector is only parsed and
validated inside the reslice branch), contradicting the claim that every run
supplying such a vector raises a validation error. -/
theorem oversample_not_checked_without_reslice :
    ({ exOpts with oversample := some [0, 1, 1] } : Opts).oversample =
      some [0, 1, 1] ∧
    ({ exOpts with oversample := some [0, 1, 1] } : Opts).reslice = none ∧
    (run { exOpts with oversample := some [0, 1, 1] } exHeader).2 = none :=
  ⟨rfl, rfl, rfl⟩

/-- C5 (amended): in a run with `-reslice` supplied, in which the transform
composition raises no earlier error, a supplied `-oversample` vector that
does not have exactly 3 values or contains a value less than 1 raises a
validation error (and no output is created). -/
theorem oversample_checked_in_reslice (o : Opts) (h tmpl : Header) (v : List ℤ)
    (T2 : Option Mat4) (rep : Bool)
    (hres : o.reslice = some tmpl) (hov : o.oversample = some v)
    (hbad : v.length ≠ 3 ∨ ∃ x ∈ v, x < 1)
    (hok : composeTransform o h = Except.ok (T2, rep)) :
    (run o h).1 = [] ∧
      ((run o h).2 = some Err.oversampleSize ∨
       (run o h).2 = some Err.oversampleBad) := by
  rcases checkOversample_bad v hbad with hc | hc <;>
    simp [run, hok, hres, resliceBranch, hov, hc]

theorem oversample_checked_in_reslice_witness :
    (run { exOpts with reslice := some exRef, oversample := some [0, 1, 1] }
        exHeader).1 = [] ∧
      ((run { exOpts with reslice := some exRef, oversample := some [0, 1, 1] }
          exHeader).2 = some Err.oversampleSize ∨
       (run { exOpts with reslice := some exRef, oversample := some [0, 1, 1] }
          exHeader).2 = some Err.oversampleBad) :=
  oversample_checked_in_reslice
    { exOpts with reslice := some exRef, oversample := some [0, 1, 1] }
    exHeader exRef [0, 1, 1] none false rfl rfl
    (Or.inr ⟨0, by simp, by norm_num⟩) rfl

/-- C8: in the reslice path, the header passed to output-image creation
carries the template's first three axis dimensions, voxel sizes and scanner
transform (the output is created after they are set), and the kernel used by
the engine defaults to linear when `-interp` is not supplied. -/
theorem reslice_uses_template_geometry (o : Opts) (h tmpl : Header)
    (hres : o.reslice = some tmpl) (hsucc : (run o h).2 = none) :
    ∃ (outH hin2 : Header) (k : Kernel) (T3 : Option Mat4) (ov : List ℤ),
      (run o h).1 = [Event.createOutput outH, Event.resliceCall k hin2 T3 ov] ∧
      outH.dim = tmpl.dim ∧ outH.vox = tmpl.vox ∧
      outH.transform = tmpl.transform ∧
      (o.interp = none → k = Kernel.linear) := by
  cases hC : composeTransform o h with
  | error e => simp [run, hC] at hsucc
  | ok pr =>
      obtain ⟨T2, rep⟩ := pr
      simp only [run, hC, hres] at hsucc ⊢
      cases hov : o.oversample with
      | none =>
          simp only [resliceBranch, hov, resliceGo]
          refine ⟨_, _, _, _, _, rfl, rfl, rfl, rfl, ?_⟩
          intro hi
          simp [hi, kernelOfIndex]
      | some v =>
          cases hc : checkOversample v with
          | error e => simp [resliceBranch, hov, hc] at hsucc
          | ok u =>
              cases u
              simp only [resliceBranch, hov, hc, resliceGo]
              refine ⟨_, _, _, _, _, rfl, rfl, rfl, rfl, ?_⟩
              intro hi
              simp [hi, kernelOfIndex]

theorem reslice_uses_template_geometry_witness :
    ∃ (outH hin2 : Header) (k : Kernel) (T3 : Option Mat4) (ov : List ℤ),
      (run { exOpts with reslice := some exRef } exHeader).1 =
        [Event.createOutput outH, Event.resliceCall k hin2 T3 ov] ∧
      outH.dim = exRef.dim ∧ outH.vox = exRef.vox ∧
      outH.transform = exRef.transform ∧
      (({ exOpts with reslice := some exRef } : Opts).interp = none →
        k = Kernel.linear) :=
  reslice_uses_template_geometry { exOpts with reslice := some exRef } exHeader
    exRef rfl rfl

/-- C9: in the reslice path with the composed replace flag set, the composed
transform is swapped into the input header's transform and then cleared, so
the reslicing engine is invoked with an unset transform, and the output
header keeps the template's transform (the replacement is never applied to
the output header). -/
theorem reslice_replace_swaps_into_input (o : Opts) (h tmpl : Header) (t : Mat4)
    (hres : o.reslice = some tmpl)
    (hok : composeTransform o h = Except.ok (some t, true))
    (hsucc : (run o h).2 = none) :
    ∃ (outH : Header) (k : Kernel) (ov : List ℤ),
      (run o h).1 = [Event.createOutput outH,
        Event.resliceCall k { h with transform := t } none ov] ∧
      outH.transform = tmpl.transform := by
  simp only [run, hok, hres] at hsucc ⊢
  cases hov : o.oversample with
  | none =>
      simp only [resliceBranch, hov, resliceGo]
      exact ⟨_, _, _, rfl, rfl⟩
  | some v =>
      cases hc : checkOversample v with
      | error e => simp [resliceBranch, hov, hc] at hsucc
      | ok u =>
          cases u
          simp only [resliceBranch, hov, hc, resliceGo]
          exact ⟨_, _, _, rfl, rfl⟩

theorem reslice_replace_swaps_into_input_witness :
    ∃ (outH : Header) (k : Kernel) (ov : List ℤ),
      (run { exOpts with
              transform := some exRaw4
              replace := true
              reslice := some exRef } exHeader).1 =
        [Event.createOutput outH,
         Event.resliceCall k { exHeader with transform := exRaw4.toMat4 } none ov] ∧
      outH.transform = exRef.transform :=
  reslice_replace_swaps_into_input
    { exOpts with transform := some exRaw4, replace := true, reslice := some exRef }
    exHeader exRef exRaw4.toMat4 rfl rfl rfl

/-- C10: when `-flipx` is supplied without `-reference`, it is silently
ignored: the whole run (its effect trace and its error outcome) is identical
to the same run without `-flipx`. -/
theorem flipx_ignored_without_reference (o : Opts) (h : Header) (b : Bool)
    (href : o.reference = none) :
    run { o with flipx := b } h = run { o with flipx := false } h := by
  obtain ⟨ot, orp, oiv, ors, orf, ofx, oip, oov⟩ := o
  simp only at href
  subst href
  rfl

theorem flipx_ignored_without_reference_witness :
    run { exOpts with flipx := true } exHeader =
      run { exOpts with flipx := false } exHeader :=
  flipx_ignored_without_reference exOpts exHeader true rfl

end MRTransform
